import Mathlib

/-!
Shallow embedding of the `solana-escrow` program.

This file embeds the two handlers of `src/processor.rs`
(`Processor::processor_init_escrow` and `Processor::processor_exchange`)
and the error model of `src/error.rs` as executable Lean definitions, and
proves the specification claims about them.

Modelling conventions:
* `Pubkey` is an abstract identity, modelled as `Nat`.
* Machine `u64` values are `Nat` together with explicit `< 2 ^ 64`
  comparisons where the Rust code performs checked arithmetic.
* Account data is modelled by the inductive `AccountData`: a packed byte
  buffer is represented by its parsed content (an `Escrow` record image, an
  SPL token-account image, the rent sysvar) or by its length alone when the
  handlers never inspect it.  Zero-length data (the result of closing the
  escrow record) is `AccountData.empty`.
* External collaborator calls (`invoke`/`invoke_signed` of SPL token
  instructions) are recorded in an `invocations` list in program order; the
  host executes them, so the handlers' own account writes are the only local
  mutations tracked in `accounts`.
* Early `return Err(..)` in Rust becomes an `Output` carrying the error, the
  account list as mutated so far, and the invocations issued so far.
-/

namespace SolanaEscrow

/-- Ledger account identities (`solana_program::pubkey::Pubkey`),
abstracted to `Nat`. -/
abbrev Pubkey := Nat

/-- The modulus `2 ^ 64` of the Rust `u64` type. -/
def U64_MOD : Nat := 2 ^ 64

/-- The `solana_program::program_error::ProgramError` variants reachable from
this program, plus `Custom` for the program's own `EscrowError` codes. -/
inductive ProgramError where
  | MissingRequiredSignature
  | IncorrectProgramId
  | InvalidAccountData
  | AccountAlreadyInitialized
  | UninitializedAccount
  | NotEnoughAccountKeys
  | Custom (code : Nat)
deriving DecidableEq, Repr

/-- Error kinds of `EscrowError` in `src/error.rs`. -/
inductive EscrowError where
  | AmountOverflow
  | ExpectedAmountMismatch
  | InvalidAmount
  | InvalidInstruction
  | NotRentExempt
deriving DecidableEq, Repr

/-- The discriminant of each `EscrowError` variant (`e as u32` in
`src/error.rs`), in declaration order. -/
def EscrowError.code : EscrowError → Nat
  | .AmountOverflow => 0
  | .ExpectedAmountMismatch => 1
  | .InvalidAmount => 2
  | .InvalidInstruction => 3
  | .NotRentExempt => 4

/-- Conversion `impl From<EscrowError> for ProgramError` in `src/error.rs`:
`ProgramError::Custom(e as u32)`. -/
def EscrowError.toProgramError (e : EscrowError) : ProgramError :=
  .Custom e.code

/-- The escrow record (`Escrow` in `src/state.rs`, layout per spec section 3:
105 bytes packed). -/
structure Escrow where
  is_initialized : Bool
  initializer_pubkey : Pubkey
  temp_token_account_pubkey : Pubkey
  initializer_token_to_receive_account_pubkey : Pubkey
  expected_amount : Nat
deriving DecidableEq, Repr

/-- The fields of an SPL token account (`spl_token::state::Account`) that the
handlers read.  The token ledger is an external collaborator; `initialized`
stands for its `state != AccountState::Uninitialized` flag. -/
structure TokenAccount where
  mint : Pubkey
  owner : Pubkey
  amount : Nat
  initialized : Bool
deriving DecidableEq, Repr

/-- The rent-exemption collaborator (spec section 6):
`is_exempt(balance, data_length) -> bool`. -/
structure Rent where
  is_exempt : Nat → Nat → Bool

/-- Contents of an account's data buffer, represented by its parsed form. -/
inductive AccountData where
  | empty
  | escrow (e : Escrow)
  | token (t : TokenAccount)
  | rentSysvar (r : Rent)
  | other (len : Nat)

/-- Byte length of the packed representation (`AccountInfo::data_len`):
an `Escrow` record is 105 bytes, an SPL token account 165 bytes. -/
def AccountData.len : AccountData → Nat
  | .empty => 0
  | .escrow _ => 105
  | .token _ => 165
  | .rentSysvar _ => 17
  | .other n => n

/-- Accounts (`solana_program::account_info::AccountInfo`), restricted to the
fields the handlers read or write. -/
structure AccountInfo where
  key : Pubkey
  is_signer : Bool
  owner : Pubkey
  lamports : Nat
  data : AccountData

/-- Unpacking an SPL token account (`spl_token::state::Account::unpack`,
external collaborator):
data of the wrong shape fails with `InvalidAccountData`; an uninitialized
token account fails with `UninitializedAccount`. -/
def TokenAccount.unpack : AccountData → Except ProgramError TokenAccount
  | .token t => if t.initialized then .ok t else .error .UninitializedAccount
  | _ => .error .InvalidAccountData

/-- Modelled from the spec: `Escrow::unpack_unchecked` comes from
`src/state.rs`, which is not among the provided sources.  Per spec sections 3
and 6 the record is a fixed-size 105-byte packed buffer; deserializing a
buffer of any other shape fails with `InvalidAccountData`, with no check of
the `is_initialized` flag. -/
def Escrow.unpack_unchecked : AccountData → Except ProgramError Escrow
  | .escrow e => .ok e
  | _ => .error .InvalidAccountData

/-- Modelled from the spec: `Escrow::unpack` (the checked variant from
`src/state.rs`, not among the provided sources) deserializes and then
requires the initialized-state precondition, failing with
`UninitializedAccount` otherwise (spec section 4.4: "Exchange against a
closed or never-initialized record fails deterministically because its
stored content no longer satisfies the initialized ... precondition"). -/
def Escrow.unpack (d : AccountData) : Except ProgramError Escrow :=
  match Escrow.unpack_unchecked d with
  | .error e => .error e
  | .ok e => if e.is_initialized then .ok e else .error .UninitializedAccount

/-- Modelled from the spec: `Escrow::pack` from `src/state.rs` (not among the
provided sources) serializes the record into its 105-byte buffer. -/
def Escrow.pack (e : Escrow) : AccountData :=
  .escrow e

/-- Reading the rent sysvar (`Rent::from_account_info`) from an account whose
data is not the rent sysvar fails. -/
def Rent.from_account_info : AccountData → Except ProgramError Rent
  | .rentSysvar r => .ok r
  | _ => .error .InvalidAccountData

/-- The identity of the external SPL token program (`spl_token::id()`),
an arbitrary distinguished constant in this model. -/
def spl_token_id : Pubkey := 982

/-- Derivation `Pubkey::find_program_address([b"escrow"], program_id)` — the external
address-derivation collaborator.  The handlers use it only as an opaque
deterministic function of the program identity, which is all this model
provides. -/
def find_program_address (program_id : Pubkey) : Pubkey × Nat :=
  (2 * program_id + 1, 254)

/-- SPL token instructions the handlers construct and invoke
(external collaborator calls, recorded in program order). -/
inductive TokenIx where
  | transfer (token_program source destination authority : Pubkey) (amount : Nat)
  | setAuthority (token_program account : Pubkey) (new_authority : Option Pubkey)
      (current_authority : Pubkey)
  | closeAccount (token_program account destination authority : Pubkey)
deriving DecidableEq, Repr

/-- Result of one handler invocation: the `ProgramResult`, the account list
with this program's own writes applied, and the collaborator instructions
invoked, in order. -/
structure Output where
  res : Except ProgramError Unit
  accounts : List AccountInfo
  invocations : List TokenIx

/-- Handler `Processor::processor_init_escrow` from `src/processor.rs`
(lines 37-107), step for step: signer check, temp token account unpack,
receive-account ownership check, rent-exemption check, `unpack_unchecked`
plus the `is_initialized` guard, the record write, and the `set_authority`
invocation. -/
def processor_init_escrow (accounts : List AccountInfo) (amount : Nat)
    (program_id : Pubkey) : Output :=
  let fail := fun (e : ProgramError) => Output.mk (.error e) accounts []
  match accounts[0]? with
  | none => fail .NotEnoughAccountKeys
  | some initializer =>
  if !initializer.is_signer then fail .MissingRequiredSignature else
  match accounts[1]? with
  | none => fail .NotEnoughAccountKeys
  | some temp_token_account =>
  match TokenAccount.unpack temp_token_account.data with
  | .error e => fail e
  | .ok _temp_token_account_state =>
  match accounts[2]? with
  | none => fail .NotEnoughAccountKeys
  | some token_to_receive_account =>
  if token_to_receive_account.owner ≠ spl_token_id then fail .IncorrectProgramId else
  match accounts[3]? with
  | none => fail .NotEnoughAccountKeys
  | some escrow_account =>
  match accounts[4]? with
  | none => fail .NotEnoughAccountKeys
  | some rent_account =>
  match Rent.from_account_info rent_account.data with
  | .error e => fail e
  | .ok rent =>
  if !rent.is_exempt escrow_account.lamports escrow_account.data.len then
    fail EscrowError.NotRentExempt.toProgramError
  else
  match Escrow.unpack_unchecked escrow_account.data with
  | .error e => fail e
  | .ok escrow_info =>
  if escrow_info.is_initialized then fail .AccountAlreadyInitialized else
  let escrow_info : Escrow :=
    { is_initialized := true
      initializer_pubkey := initializer.key
      temp_token_account_pubkey := temp_token_account.key
      initializer_token_to_receive_account_pubkey := token_to_receive_account.key
      expected_amount := amount }
  let accounts := accounts.set 3 { escrow_account with data := Escrow.pack escrow_info }
  let pda := (find_program_address program_id).1
  match accounts[5]? with
  | none => Output.mk (.error .NotEnoughAccountKeys) accounts []
  | some token_program =>
  let owner_change_ix :=
    TokenIx.setAuthority token_program.key temp_token_account.key (some pda) initializer.key
  Output.mk (.ok ()) accounts [owner_change_ix]

/-- Handler `Processor::processor_exchange` from `src/processor.rs`
(lines 109-223),
step for step: signer check, holding-account unpack, amount check, `Escrow`
unpack, three identity checks, the two transfers and the close invocation,
the checked lamport addition, and the zeroing of the record. -/
def processor_exchange (accounts : List AccountInfo) (amount : Nat)
    (program_id : Pubkey) : Output :=
  let fail := fun (e : ProgramError) => Output.mk (.error e) accounts []
  match accounts[0]? with
  | none => fail .NotEnoughAccountKeys
  | some taker_account =>
  if !taker_account.is_signer then fail .MissingRequiredSignature else
  match accounts[1]? with
  | none => fail .NotEnoughAccountKeys
  | some taker_token_to_send_account =>
  match accounts[2]? with
  | none => fail .NotEnoughAccountKeys
  | some taker_token_to_receive_account =>
  match accounts[3]? with
  | none => fail .NotEnoughAccountKeys
  | some pda_token_account =>
  match TokenAccount.unpack pda_token_account.data with
  | .error e => fail e
  | .ok pda_token_account_state =>
  let pda_bump := find_program_address program_id
  if amount ≠ pda_token_account_state.amount then
    fail EscrowError.ExpectedAmountMismatch.toProgramError
  else
  match accounts[4]? with
  | none => fail .NotEnoughAccountKeys
  | some initializer_account =>
  match accounts[5]? with
  | none => fail .NotEnoughAccountKeys
  | some initializer_token_to_receive_account =>
  match accounts[6]? with
  | none => fail .NotEnoughAccountKeys
  | some escrow_account =>
  match Escrow.unpack escrow_account.data with
  | .error e => fail e
  | .ok escrow_info =>
  if pda_token_account.key ≠ escrow_info.temp_token_account_pubkey then
    fail .InvalidAccountData
  else
  if escrow_info.initializer_pubkey ≠ initializer_account.key then
    fail .InvalidAccountData
  else
  if escrow_info.initializer_token_to_receive_account_pubkey
      ≠ initializer_token_to_receive_account.key then
    fail .InvalidAccountData
  else
  match accounts[7]? with
  | none => fail .NotEnoughAccountKeys
  | some token_program =>
  let ix_transfer_to_initializer :=
    TokenIx.transfer token_program.key taker_token_to_send_account.key
      initializer_token_to_receive_account.key taker_account.key amount
  match accounts[8]? with
  | none => Output.mk (.error .NotEnoughAccountKeys) accounts [ix_transfer_to_initializer]
  | some _pda_account =>
  let ix_transfer_to_taker :=
    TokenIx.transfer token_program.key pda_token_account.key
      taker_token_to_receive_account.key pda_bump.1 pda_token_account_state.amount
  let ix_close_pda_account :=
    TokenIx.closeAccount token_program.key pda_token_account.key
      initializer_account.key pda_bump.1
  let invocations := [ix_transfer_to_initializer, ix_transfer_to_taker, ix_close_pda_account]
  if initializer_account.lamports + escrow_account.lamports < U64_MOD then
    let accounts :=
      (accounts.set 4
        { initializer_account with
            lamports := initializer_account.lamports + escrow_account.lamports }).set 6
        { escrow_account with lamports := 0, data := .empty }
    Output.mk (.ok ()) accounts invocations
  else
    Output.mk (.error EscrowError.AmountOverflow.toProgramError) accounts invocations

/-- The instruction union (`EscrowInstruction` in `src/instruction.rs`). -/
inductive EscrowInstruction where
  | InitEscrow (amount : Nat)
  | Exchange (amount : Nat)
deriving DecidableEq, Repr

/-- Little-endian byte-list to natural number (`u64::from_le_bytes` on the
8 amount bytes); each byte is reduced mod 256. -/
def leBytesToNat : List Nat → Nat
  | [] => 0
  | b :: rest => b % 256 + 256 * leBytesToNat rest

/-- Modelled from the spec: `EscrowInstruction::unpack` lives in
`src/instruction.rs`, which is not among the provided sources.  Per spec
sections 4.1 and 6: byte 0 is the opcode (0 = InitEscrow, 1 = Exchange),
bytes 1-8 are a little-endian unsigned 64-bit amount; an unrecognized opcode
or a payload of fewer than 9 bytes fails with `InvalidInstruction`; trailing
bytes are ignored. -/
def EscrowInstruction.unpack (input : List Nat) : Except ProgramError EscrowInstruction :=
  match input with
  | [] => .error EscrowError.InvalidInstruction.toProgramError
  | tag :: rest =>
    if rest.length < 8 then .error EscrowError.InvalidInstruction.toProgramError
    else if tag = 0 then .ok (.InitEscrow (leBytesToNat (rest.take 8)))
    else if tag = 1 then .ok (.Exchange (leBytesToNat (rest.take 8)))
    else .error EscrowError.InvalidInstruction.toProgramError

/-- Dispatcher `Processor::processor` from `src/processor.rs` (lines 18-35):
decode,
then dispatch to the matching handler. -/
def processor (program_id : Pubkey) (accounts : List AccountInfo)
    (instruction_data : List Nat) : Output :=
  match EscrowInstruction.unpack instruction_data with
  | .error e => Output.mk (.error e) accounts []
  | .ok (.InitEscrow amount) => processor_init_escrow accounts amount program_id
  | .ok (.Exchange amount) => processor_exchange accounts amount program_id


/-! Concrete scenarios used by the witness theorems.  The `x`-prefixed
accounts form an Exchange invocation against program id 77 (derived
authority 155); the `i`-prefixed accounts form an Init invocation. -/

/-- Taker account: signer. -/
def xTaker : AccountInfo := ⟨1, true, 0, 10, .other 0⟩

/-- Taker's asset-B send account. -/
def xTakerSend : AccountInfo := ⟨2, false, spl_token_id, 0, .other 0⟩

/-- Taker's asset-A receive account. -/
def xTakerRecv : AccountInfo := ⟨3, false, spl_token_id, 0, .other 0⟩

/-- Token state of the holding account: 42 escrowed units. -/
def xHoldingState : TokenAccount := ⟨11, 12, 42, true⟩

/-- Holding (temp token) account, identity 50. -/
def xHolding : AccountInfo := ⟨50, false, spl_token_id, 5, .token xHoldingState⟩

/-- Initializer main account, identity 7, balance 100. -/
def xInitializer : AccountInfo := ⟨7, false, 0, 100, .other 0⟩

/-- Initializer's asset-B receive account, identity 8. -/
def xInitRecv : AccountInfo := ⟨8, false, 0, 0, .other 0⟩

/-- Persisted escrow record matching the accounts above. -/
def xRecord : Escrow := ⟨true, 7, 50, 8, 42⟩

/-- Escrow record account holding `xRecord`, with a 3-lamport rent reserve. -/
def xEscrowAcc : AccountInfo := ⟨9, false, 77, 3, .escrow xRecord⟩

/-- Token program handle. -/
def xTokenProg : AccountInfo := ⟨spl_token_id, false, 0, 0, .other 0⟩

/-- Derived-authority (PDA) handle for program id 77. -/
def xPdaAcc : AccountInfo := ⟨155, false, 0, 0, .other 0⟩

/-- A well-formed Exchange account list. -/
def xAccounts : List AccountInfo :=
  [xTaker, xTakerSend, xTakerRecv, xHolding, xInitializer, xInitRecv,
   xEscrowAcc, xTokenProg, xPdaAcc]

/-- An initializer handle whose identity (99) differs from the recorded one. -/
def xBadInitializer : AccountInfo := ⟨99, false, 0, 100, .other 0⟩

/-- Exchange account list with a substituted initializer account. -/
def xAccountsBadInitializer : List AccountInfo :=
  [xTaker, xTakerSend, xTakerRecv, xHolding, xBadInitializer, xInitRecv,
   xEscrowAcc, xTokenProg, xPdaAcc]

/-- The escrow record account after a successful Exchange: balance zeroed,
data cleared. -/
def xClosedEscrowAcc : AccountInfo := ⟨9, false, 77, 0, .empty⟩

/-- Exchange account list whose escrow record account is already closed. -/
def xAccountsClosed : List AccountInfo :=
  [xTaker, xTakerSend, xTakerRecv, xHolding, xInitializer, xInitRecv,
   xClosedEscrowAcc, xTokenProg, xPdaAcc]

/-- An initializer whose balance is one below the `u64` maximum. -/
def xRichInitializer : AccountInfo := ⟨7, false, 0, U64_MOD - 1, .other 0⟩

/-- Exchange account list for which the rent refund overflows `u64`. -/
def xAccountsRich : List AccountInfo :=
  [xTaker, xTakerSend, xTakerRecv, xHolding, xRichInitializer, xInitRecv,
   xEscrowAcc, xTokenProg, xPdaAcc]

/-- A concrete rent oracle: exemption requires 10 lamports per data byte. -/
def iRent : Rent := ⟨fun lamports len => decide (len * 10 ≤ lamports)⟩

/-- Initializer account for the Init scenario: signer, identity 21. -/
def iInitializer : AccountInfo := ⟨21, true, 0, 5, .other 0⟩

/-- Token state of the deposited (temp) token account. -/
def iTempState : TokenAccount := ⟨31, 21, 100, true⟩

/-- Temp (holding) token account, identity 22. -/
def iTempToken : AccountInfo := ⟨22, false, spl_token_id, 2, .token iTempState⟩

/-- Receive account owned by the token program, identity 23. -/
def iReceive : AccountInfo := ⟨23, false, spl_token_id, 2, .other 0⟩

/-- Fresh escrow record account: uninitialized record, rent-exempt balance. -/
def iEscrowAcc : AccountInfo := ⟨24, false, 77, 2000, .escrow ⟨false, 0, 0, 0, 0⟩⟩

/-- Rent sysvar account carrying `iRent`. -/
def iRentAcc : AccountInfo := ⟨25, false, 0, 1, .rentSysvar iRent⟩

/-- Token program handle for the Init scenario. -/
def iTokenProg : AccountInfo := ⟨spl_token_id, false, 0, 1, .other 0⟩

/-- A well-formed Init account list. -/
def iAccounts : List AccountInfo :=
  [iInitializer, iTempToken, iReceive, iEscrowAcc, iRentAcc, iTokenProg]

/-- An escrow record that is already initialized. -/
def iRecordInitialized : Escrow := ⟨true, 1, 2, 3, 4⟩

/-- Escrow record account already holding an initialized record. -/
def iEscrowAccInitialized : AccountInfo :=
  ⟨24, false, 77, 2000, .escrow iRecordInitialized⟩

/-- Init account list whose record is already initialized. -/
def iAccountsInitialized : List AccountInfo :=
  [iInitializer, iTempToken, iReceive, iEscrowAccInitialized, iRentAcc, iTokenProg]

/-- Escrow record account that is initialized but not rent-exempt
(100 lamports for 105 data bytes under `iRent`). -/
def iPoorEscrowAcc : AccountInfo := ⟨24, false, 77, 100, .escrow iRecordInitialized⟩

/-- Init account list whose record account is below the rent-exempt
threshold and already initialized. -/
def iAccountsPoor : List AccountInfo :=
  [iInitializer, iTempToken, iReceive, iPoorEscrowAcc, iRentAcc, iTokenProg]

/-- Checked `Escrow::unpack` can only fail with `InvalidAccountData` (wrong
buffer shape) or `UninitializedAccount` (flag clear); it never produces a
`Custom` program error. -/
theorem escrow_unpack_error_cases {d : AccountData} {e : ProgramError}
    (h : Escrow.unpack d = .error e) :
    e = .InvalidAccountData ∨ e = .UninitializedAccount := by
  cases d with
  | escrow e' =>
    by_cases hi : e'.is_initialized <;>
        simp [Escrow.unpack, Escrow.unpack_unchecked, hi] at h <;>
      simp [h]
  | _ => simp [Escrow.unpack, Escrow.unpack_unchecked] at h <;> simp [h]

/-- Token-account unpacking can only fail with `InvalidAccountData` or
`UninitializedAccount`. -/
theorem token_unpack_error_cases {d : AccountData} {e : ProgramError}
    (h : TokenAccount.unpack d = .error e) :
    e = .InvalidAccountData ∨ e = .UninitializedAccount := by
  cases d with
  | token t =>
    by_cases hi : t.initialized <;> simp [TokenAccount.unpack, hi] at h <;> simp [h]
  | _ => simp [TokenAccount.unpack] at h <;> simp [h]

/-- Reading the rent sysvar can only fail with `InvalidAccountData`. -/
theorem Rent.from_account_info_error_cases {d : AccountData} {e : ProgramError}
    (h : Rent.from_account_info d = .error e) : e = .InvalidAccountData := by
  cases d <;> simp [Rent.from_account_info] at h <;> simp [h]

/-- Unchecked `Escrow` deserialization can only fail with
`InvalidAccountData`. -/
theorem Escrow.unpack_unchecked_error_cases {d : AccountData} {e : ProgramError}
    (h : Escrow.unpack_unchecked d = .error e) : e = .InvalidAccountData := by
  cases d <;> simp [Escrow.unpack_unchecked] at h <;> simp [h]

/-- Unchecked `Escrow` deserialization succeeds exactly on an escrow-shaped
buffer, returning its content. -/
theorem Escrow.unpack_unchecked_ok {d : AccountData} {e : Escrow}
    (h : Escrow.unpack_unchecked d = .ok e) : d = .escrow e := by
  cases d with
  | escrow e' =>
    simp only [Escrow.unpack_unchecked, Except.ok.injEq] at h
    rw [h]
  | _ => simp [Escrow.unpack_unchecked] at h


/-- C1: For every Exchange invocation that reaches the amount check (taker
signed, the first four accounts are present, and the holding token account
unpacks), a taker-specified amount differing in either direction from the
holding account's current balance makes the handler return
`ExpectedAmountMismatch` with no account mutated and no collaborator call
invoked; and if the amounts are equal, `ExpectedAmountMismatch` is never the
result of the invocation. -/
theorem exchange_expected_amount_guard
    (accounts : List AccountInfo) (amount program_id : Nat)
    (a0 a1 a2 a3 : AccountInfo) (t : TokenAccount)
    (h0 : accounts[0]? = some a0) (hs : a0.is_signer = true)
    (h1 : accounts[1]? = some a1) (h2 : accounts[2]? = some a2)
    (h3 : accounts[3]? = some a3)
    (ht : TokenAccount.unpack a3.data = .ok t) :
    (amount ≠ t.amount →
      processor_exchange accounts amount program_id =
        ⟨.error EscrowError.ExpectedAmountMismatch.toProgramError, accounts, []⟩) ∧
    (amount = t.amount →
      (processor_exchange accounts amount program_id).res ≠
        .error EscrowError.ExpectedAmountMismatch.toProgramError) := by
  constructor
  · intro hne
    simp only [processor_exchange, h0, h1, h2, h3, ht, hs]
    simp [hne]
  · intro heq
    simp only [processor_exchange, h0, h1, h2, h3, ht, hs]
    subst heq
    simp only [ne_eq, not_true_eq_false, Bool.not_true, Bool.false_eq_true, if_false,
      ite_false]
    repeat' split
    all_goals try simp [EscrowError.toProgramError, EscrowError.code]
    rename_i e he
    rcases escrow_unpack_error_cases he with rfl | rfl <;> simp

/-- Witness for C1: with 42 units escrowed, requesting 41 fails with
`ExpectedAmountMismatch` and mutates nothing. -/
theorem exchange_expected_amount_guard_witness :
    (41 : Nat) ≠ xHoldingState.amount ∧
    processor_exchange xAccounts 41 77 =
      ⟨.error EscrowError.ExpectedAmountMismatch.toProgramError, xAccounts, []⟩ :=
  ⟨by decide,
    (exchange_expected_amount_guard xAccounts 41 77 xTaker xTakerSend xTakerRecv
      xHolding xHoldingState rfl rfl rfl rfl rfl rfl).1 (by decide)⟩

/-- C2: For every Exchange invocation that reaches the identity checks
(taker signed, accounts present, holding account unpacks, amount matches,
escrow record unpacks initialized), a mismatch of the supplied holding
account, initializer, or initializer-receive account against the values
stored in the record makes the handler return `InvalidAccountData` with no
account mutated and no collaborator call invoked. -/
theorem exchange_identity_guard
    (accounts : List AccountInfo) (amount program_id : Nat)
    (a0 a1 a2 a3 a4 a5 a6 : AccountInfo) (t : TokenAccount) (e : Escrow)
    (h0 : accounts[0]? = some a0) (hs : a0.is_signer = true)
    (h1 : accounts[1]? = some a1) (h2 : accounts[2]? = some a2)
    (h3 : accounts[3]? = some a3)
    (ht : TokenAccount.unpack a3.data = .ok t)
    (hamt : amount = t.amount)
    (h4 : accounts[4]? = some a4) (h5 : accounts[5]? = some a5)
    (h6 : accounts[6]? = some a6)
    (he : Escrow.unpack a6.data = .ok e)
    (hmis : a3.key ≠ e.temp_token_account_pubkey ∨
      e.initializer_pubkey ≠ a4.key ∨
      e.initializer_token_to_receive_account_pubkey ≠ a5.key) :
    processor_exchange accounts amount program_id =
      ⟨.error .InvalidAccountData, accounts, []⟩ := by
  subst hamt
  simp only [processor_exchange, h0, h1, h2, h3, h4, h5, h6, ht, he, hs]
  rcases hmis with hm | hm | hm <;> simp [hm]

/-- Witness for C2: substituting an initializer account (identity 99) that
differs from the recorded identity 7 fails with `InvalidAccountData` and
mutates nothing. -/
theorem exchange_identity_guard_witness :
    xRecord.initializer_pubkey ≠ xBadInitializer.key ∧
    processor_exchange xAccountsBadInitializer 42 77 =
      ⟨.error .InvalidAccountData, xAccountsBadInitializer, []⟩ :=
  ⟨by decide,
    exchange_identity_guard xAccountsBadInitializer 42 77 xTaker xTakerSend
      xTakerRecv xHolding xBadInitializer xInitRecv xEscrowAcc xHoldingState
      xRecord rfl rfl rfl rfl rfl rfl rfl rfl rfl rfl rfl
      (Or.inr (Or.inl (by decide)))⟩

/-- C3: A successful Exchange closes the escrow record account — balance
zeroed and data cleared — and every Exchange invocation whose escrow record
account has cleared (zero-length) data fails with some error before any
transfer is invoked and without mutating any account. -/
theorem exchange_closed_record_terminal :
    (∀ (accounts : List AccountInfo) (amount program_id : Nat) (a6 : AccountInfo),
      accounts[6]? = some a6 →
      (processor_exchange accounts amount program_id).res = .ok () →
      (processor_exchange accounts amount program_id).accounts[6]? =
        some { a6 with lamports := 0, data := .empty }) ∧
    (∀ (accounts : List AccountInfo) (amount program_id : Nat) (a6 : AccountInfo),
      accounts[6]? = some a6 → a6.data = .empty →
      ∃ err : ProgramError,
        processor_exchange accounts amount program_id =
          ⟨.error err, accounts, []⟩) := by
  constructor
  · intro accounts amount program_id a6 h6 hok
    have hlen : 6 < accounts.length := by
      rcases List.getElem?_eq_some.mp h6 with ⟨h, _⟩
      exact h
    simp only [processor_exchange] at hok ⊢
    repeat' split at hok
    all_goals simp_all
  · intro accounts amount program_id a6 h6 hempty
    simp only [processor_exchange, h6, hempty, Escrow.unpack, Escrow.unpack_unchecked]
    repeat' split
    all_goals exact ⟨_, rfl⟩

/-- Witness for C3: Exchange against the closed record account (data
cleared by a previous successful Exchange) fails with no transfer invoked
and no account mutated. -/
theorem exchange_closed_record_terminal_witness :
    xClosedEscrowAcc.data = AccountData.empty ∧
    ∃ err : ProgramError,
      processor_exchange xAccountsClosed 42 77 =
        ⟨.error err, xAccountsClosed, []⟩ :=
  ⟨rfl, exchange_closed_record_terminal.2 xAccountsClosed 42 77 xClosedEscrowAcc rfl rfl⟩

/-- C4: Every successful Init persists into the escrow record account the
record whose four fields are exactly the supplied initializer identity,
holding-account identity, receive-account identity and instruction amount,
with `is_initialized = true`. -/
theorem init_success_persists_record
    (accounts : List AccountInfo) (amount program_id : Nat)
    (a0 a1 a2 a3 : AccountInfo)
    (h0 : accounts[0]? = some a0) (h1 : accounts[1]? = some a1)
    (h2 : accounts[2]? = some a2) (h3 : accounts[3]? = some a3)
    (hok : (processor_init_escrow accounts amount program_id).res = .ok ()) :
    (processor_init_escrow accounts amount program_id).accounts[3]? =
      some { a3 with data := .escrow ⟨true, a0.key, a1.key, a2.key, amount⟩ } := by
  have hlen : 3 < accounts.length := by
    rcases List.getElem?_eq_some.mp h3 with ⟨h, _⟩
    exact h
  simp only [processor_init_escrow] at hok ⊢
  repeat' split at hok
  all_goals simp_all [Escrow.pack]

/-- Witness for C4: a successful Init with amount 500 persists
`⟨true, 21, 22, 23, 500⟩`. -/
theorem init_success_persists_record_witness :
    (processor_init_escrow iAccounts 500 77).res = .ok () ∧
    (processor_init_escrow iAccounts 500 77).accounts[3]? =
      some { iEscrowAcc with
              data := .escrow ⟨true, iInitializer.key, iTempToken.key, iReceive.key, 500⟩ } :=
  ⟨rfl,
    init_success_persists_record iAccounts 500 77 iInitializer iTempToken iReceive
      iEscrowAcc rfl rfl rfl rfl rfl⟩

/-- C5: For every Init invocation that reaches the double-init guard
(initializer signed, accounts present, temp token account unpacks, receive
account owned by the token program, record rent-exempt, record buffer
deserializes), an `is_initialized = true` record makes the handler fail with
`AccountAlreadyInitialized`, mutating no account and invoking nothing. -/
theorem init_already_initialized_guard
    (accounts : List AccountInfo) (amount program_id : Nat)
    (a0 a1 a2 a3 a4 : AccountInfo) (t : TokenAccount) (r : Rent) (e : Escrow)
    (h0 : accounts[0]? = some a0) (hs : a0.is_signer = true)
    (h1 : accounts[1]? = some a1)
    (ht : TokenAccount.unpack a1.data = .ok t)
    (h2 : accounts[2]? = some a2) (hown : a2.owner = spl_token_id)
    (h3 : accounts[3]? = some a3) (h4 : accounts[4]? = some a4)
    (hr : Rent.from_account_info a4.data = .ok r)
    (hex : r.is_exempt a3.lamports a3.data.len = true)
    (hu : Escrow.unpack_unchecked a3.data = .ok e)
    (hinit : e.is_initialized = true) :
    processor_init_escrow accounts amount program_id =
      ⟨.error .AccountAlreadyInitialized, accounts, []⟩ := by
  simp only [processor_init_escrow, h0, h1, h2, h3, h4, ht, hr, hu, hs, hown, hex,
    hinit]
  simp

/-- Witness for C5: Init against a record already carrying
`is_initialized = true` fails with `AccountAlreadyInitialized` and performs
no write. -/
theorem init_already_initialized_guard_witness :
    iRecordInitialized.is_initialized = true ∧
    processor_init_escrow iAccountsInitialized 500 77 =
      ⟨.error .AccountAlreadyInitialized, iAccountsInitialized, []⟩ :=
  ⟨rfl,
    init_already_initialized_guard iAccountsInitialized 500 77 iInitializer
      iTempToken iReceive iEscrowAccInitialized iRentAcc iTempState iRent
      iRecordInitialized rfl rfl rfl rfl rfl rfl rfl rfl rfl rfl rfl rfl⟩

/-- C6: In an Exchange that passes all checks and issues its three
collaborator calls, if adding the escrow record account's lamport balance to
the initializer account's balance would overflow `u64`, the handler returns
`AmountOverflow` and performs none of the local writes: the initializer's
balance, the escrow record's balance and the escrow record's data are all
unchanged (the whole account list is returned as given). -/
theorem exchange_amount_overflow_guard
    (accounts : List AccountInfo) (amount program_id : Nat)
    (a0 a1 a2 a3 a4 a5 a6 a7 a8 : AccountInfo) (t : TokenAccount) (e : Escrow)
    (h0 : accounts[0]? = some a0) (hs : a0.is_signer = true)
    (h1 : accounts[1]? = some a1) (h2 : accounts[2]? = some a2)
    (h3 : accounts[3]? = some a3)
    (ht : TokenAccount.unpack a3.data = .ok t)
    (hamt : amount = t.amount)
    (h4 : accounts[4]? = some a4) (h5 : accounts[5]? = some a5)
    (h6 : accounts[6]? = some a6)
    (he : Escrow.unpack a6.data = .ok e)
    (hk1 : a3.key = e.temp_token_account_pubkey)
    (hk2 : e.initializer_pubkey = a4.key)
    (hk3 : e.initializer_token_to_receive_account_pubkey = a5.key)
    (h7 : accounts[7]? = some a7) (h8 : accounts[8]? = some a8)
    (hov : U64_MOD ≤ a4.lamports + a6.lamports) :
    processor_exchange accounts amount program_id =
      ⟨.error EscrowError.AmountOverflow.toProgramError, accounts,
        [TokenIx.transfer a7.key a1.key a5.key a0.key amount,
         TokenIx.transfer a7.key a3.key a2.key (find_program_address program_id).1
           t.amount,
         TokenIx.closeAccount a7.key a3.key a4.key
           (find_program_address program_id).1]⟩ := by
  subst hamt
  simp only [processor_exchange, h0, h1, h2, h3, h4, h5, h6, h7, h8, ht, he, hs,
    hk1, hk2, hk3]
  simp [Nat.not_lt.mpr hov]

/-- Witness for C6: with the initializer at `2 ^ 64 - 1` lamports and a
3-lamport escrow record, the checked addition overflows; the handler
returns `AmountOverflow` after the three collaborator calls, leaving every
account as given. -/
theorem exchange_amount_overflow_guard_witness :
    U64_MOD ≤ xRichInitializer.lamports + xEscrowAcc.lamports ∧
    processor_exchange xAccountsRich 42 77 =
      ⟨.error EscrowError.AmountOverflow.toProgramError, xAccountsRich,
        [TokenIx.transfer xTokenProg.key xTakerSend.key xInitRecv.key xTaker.key 42,
         TokenIx.transfer xTokenProg.key xHolding.key xTakerRecv.key
           (find_program_address 77).1 xHoldingState.amount,
         TokenIx.closeAccount xTokenProg.key xHolding.key xRichInitializer.key
           (find_program_address 77).1]⟩ :=
  ⟨by decide,
    exchange_amount_overflow_guard xAccountsRich 42 77 xTaker xTakerSend xTakerRecv
      xHolding xRichInitializer xInitRecv xEscrowAcc xTokenProg xPdaAcc
      xHoldingState xRecord rfl rfl rfl rfl rfl rfl rfl rfl rfl rfl rfl rfl rfl
      rfl rfl rfl (by decide)⟩

/-- C7: Decoding maps byte 0 to the opcode (0 = InitEscrow, 1 = Exchange)
and bytes 1-8, little-endian, to the unsigned 64-bit amount; any payload
shorter than 9 bytes, or whose first byte is neither 0 nor 1, fails with
`InvalidInstruction`; in particular `[0,244,1,0,0,0,0,0,0]` decodes to
`InitEscrow 500` and `[1,244,1,0,0,0,0,0,0]` to `Exchange 500`. -/
theorem decode_wire_format :
    (∀ input : List Nat, input.length < 9 →
      EscrowInstruction.unpack input =
        .error EscrowError.InvalidInstruction.toProgramError) ∧
    (∀ (b : Nat) (rest : List Nat), b ≠ 0 → b ≠ 1 →
      EscrowInstruction.unpack (b :: rest) =
        .error EscrowError.InvalidInstruction.toProgramError) ∧
    (∀ rest : List Nat, 8 ≤ rest.length →
      EscrowInstruction.unpack (0 :: rest) =
        .ok (.InitEscrow (leBytesToNat (rest.take 8)))) ∧
    (∀ rest : List Nat, 8 ≤ rest.length →
      EscrowInstruction.unpack (1 :: rest) =
        .ok (.Exchange (leBytesToNat (rest.take 8)))) ∧
    EscrowInstruction.unpack [0, 244, 1, 0, 0, 0, 0, 0, 0] =
      .ok (.InitEscrow 500) ∧
    EscrowInstruction.unpack [1, 244, 1, 0, 0, 0, 0, 0, 0] =
      .ok (.Exchange 500) := by
  refine ⟨?_, ?_, ?_, ?_, rfl, rfl⟩
  · intro input hlen
    match input with
    | [] => rfl
    | tag :: rest =>
      simp only [List.length_cons] at hlen
      simp [EscrowInstruction.unpack, Nat.lt_of_succ_lt_succ hlen]
  · intro b rest hb0 hb1
    simp [EscrowInstruction.unpack, hb0, hb1]
  · intro rest hlen
    simp [EscrowInstruction.unpack, Nat.not_lt.mpr hlen]
  · intro rest hlen
    simp [EscrowInstruction.unpack, Nat.not_lt.mpr hlen]

/-- Witness for C7: an 8-byte payload is rejected, and so is opcode 2 with
a full-length payload. -/
theorem decode_wire_format_witness :
    EscrowInstruction.unpack [0, 244, 1, 0, 0, 0, 0, 0] =
      .error EscrowError.InvalidInstruction.toProgramError ∧
    EscrowInstruction.unpack [2, 244, 1, 0, 0, 0, 0, 0, 0] =
      .error EscrowError.InvalidInstruction.toProgramError :=
  ⟨decode_wire_format.1 [0, 244, 1, 0, 0, 0, 0, 0] (by decide),
    decode_wire_format.2.1 2 [244, 1, 0, 0, 0, 0, 0, 0] (by decide) (by decide)⟩

/-- C8: Lifecycle of the escrow record.  (a) Init against a record whose
`is_initialized` flag is already set writes nothing and does not succeed, so
the flag goes false to true at most once; (b) a successful Init starts from
an uninitialized record and writes exactly the initialized record built
from the supplied accounts and amount; (c) Exchange either leaves every
account unchanged or — exactly when it succeeds — zeroes the record
account's balance and clears its data, never modifying the record fields
in place. -/
theorem escrow_record_lifecycle :
    (∀ (accounts : List AccountInfo) (amount program_id : Nat)
      (a3 : AccountInfo) (e : Escrow),
      accounts[3]? = some a3 → a3.data = .escrow e → e.is_initialized = true →
      (processor_init_escrow accounts amount program_id).accounts = accounts ∧
      (processor_init_escrow accounts amount program_id).res ≠ .ok ()) ∧
    (∀ (accounts : List AccountInfo) (amount program_id : Nat),
      (processor_init_escrow accounts amount program_id).res = .ok () →
      ∃ (a0 a1 a2 a3 : AccountInfo) (e : Escrow),
        accounts[0]? = some a0 ∧ accounts[1]? = some a1 ∧
        accounts[2]? = some a2 ∧ accounts[3]? = some a3 ∧
        a3.data = .escrow e ∧ e.is_initialized = false ∧
        (processor_init_escrow accounts amount program_id).accounts =
          accounts.set 3
            { a3 with data := .escrow ⟨true, a0.key, a1.key, a2.key, amount⟩ }) ∧
    (∀ (accounts : List AccountInfo) (amount program_id : Nat) (a6 : AccountInfo),
      accounts[6]? = some a6 →
      ((processor_exchange accounts amount program_id).res = .ok () ∧
        (processor_exchange accounts amount program_id).accounts[6]? =
          some { a6 with lamports := 0, data := .empty }) ∨
      (processor_exchange accounts amount program_id).accounts = accounts) := by
  refine ⟨?_, ?_, ?_⟩
  · intro accounts amount program_id a3 e h3 hdata hinit
    simp only [processor_init_escrow, h3, hdata, Escrow.unpack_unchecked, hinit]
    repeat' split
    all_goals simp_all
  · intro accounts amount program_id hok
    simp only [processor_init_escrow] at hok ⊢
    repeat' split at hok
    all_goals try exact Except.noConfusion hok
    rename_i x0 a0 hq0 hsg x1 a1 hq1 xt t hqt x2 a2 hq2 how x3 a3 hq3 x4 a4 hq4
      xr r hqr hex xe e hqe hni x5 a5 hq5
    refine ⟨a0, a1, a2, a3, e, hq0, hq1, hq2, hq3,
      Escrow.unpack_unchecked_ok hqe, ?_, ?_⟩
    · exact eq_false_of_ne_true hni
    · simp [hq0, hq1, hq2, hq3, hqt, hq4, hqr, hqe, hsg, how, hex, hni, Escrow.pack]
  · intro accounts amount program_id a6 h6
    have hlen : 6 < accounts.length := by
      rcases List.getElem?_eq_some.mp h6 with ⟨h, _⟩
      exact h
    simp only [processor_exchange]
    repeat' split
    all_goals try exact Or.inr rfl
    refine Or.inl ⟨rfl, ?_⟩
    simp_all

/-- Witness for C8: Init against the already-initialized record leaves the
account list unchanged and does not succeed. -/
theorem escrow_record_lifecycle_witness :
    iRecordInitialized.is_initialized = true ∧
    (processor_init_escrow iAccountsInitialized 9 77).accounts =
      iAccountsInitialized ∧
    (processor_init_escrow iAccountsInitialized 9 77).res ≠ .ok () :=
  ⟨rfl,
    (escrow_record_lifecycle.1 iAccountsInitialized 9 77 iEscrowAccInitialized
      iRecordInitialized rfl rfl rfl).1,
    (escrow_record_lifecycle.1 iAccountsInitialized 9 77 iEscrowAccInitialized
      iRecordInitialized rfl rfl rfl).2⟩

/-- C9: No code path returns `InvalidAmount`: decoding never produces it,
neither handler ever produces it, and Init with otherwise valid accounts
succeeds for every amount — zero included — persisting `expected_amount`
equal to that amount, with no zero-amount or upper-bound rejection. -/
theorem invalid_amount_unreachable :
    (∀ input : List Nat,
      EscrowInstruction.unpack input ≠
        .error EscrowError.InvalidAmount.toProgramError) ∧
    (∀ (accounts : List AccountInfo) (amount program_id : Nat),
      (processor_init_escrow accounts amount program_id).res ≠
        .error EscrowError.InvalidAmount.toProgramError) ∧
    (∀ (accounts : List AccountInfo) (amount program_id : Nat),
      (processor_exchange accounts amount program_id).res ≠
        .error EscrowError.InvalidAmount.toProgramError) ∧
    (∀ (accounts : List AccountInfo) (amount program_id : Nat)
      (a0 a1 a2 a3 a4 a5 : AccountInfo) (t : TokenAccount) (r : Rent) (e : Escrow),
      accounts[0]? = some a0 → a0.is_signer = true →
      accounts[1]? = some a1 → TokenAccount.unpack a1.data = .ok t →
      accounts[2]? = some a2 → a2.owner = spl_token_id →
      accounts[3]? = some a3 → accounts[4]? = some a4 →
      Rent.from_account_info a4.data = .ok r →
      r.is_exempt a3.lamports a3.data.len = true →
      Escrow.unpack_unchecked a3.data = .ok e → e.is_initialized = false →
      accounts[5]? = some a5 →
      (processor_init_escrow accounts amount program_id).res = .ok () ∧
      (processor_init_escrow accounts amount program_id).accounts[3]? =
        some { a3 with data := .escrow ⟨true, a0.key, a1.key, a2.key, amount⟩ }) := by
  refine ⟨?_, ?_, ?_, ?_⟩
  · intro input
    match input with
    | [] => simp [EscrowInstruction.unpack, EscrowError.toProgramError, EscrowError.code]
    | tag :: rest =>
      simp only [EscrowInstruction.unpack]
      repeat' split
      all_goals simp [EscrowError.toProgramError, EscrowError.code]
  · intro accounts amount program_id
    simp only [processor_init_escrow]
    repeat' split
    all_goals try simp [EscrowError.toProgramError, EscrowError.code]
    all_goals rename_i e he
    all_goals first
      | (rcases token_unpack_error_cases he with rfl | rfl <;> simp)
      | (rcases Rent.from_account_info_error_cases he with rfl; simp)
      | (rcases Escrow.unpack_unchecked_error_cases he with rfl; simp)
  · intro accounts amount program_id
    simp only [processor_exchange]
    repeat' split
    all_goals try simp [EscrowError.toProgramError, EscrowError.code]
    all_goals rename_i e he
    all_goals first
      | (rcases token_unpack_error_cases he with rfl | rfl <;> simp)
      | (rcases escrow_unpack_error_cases he with rfl | rfl <;> simp)
  · intro accounts amount program_id a0 a1 a2 a3 a4 a5 t r e
      h0 hs h1 ht h2 hown h3 h4 hr hex hu hini h5
    have hlen : 3 < accounts.length := by
      rcases List.getElem?_eq_some.mp h3 with ⟨h, _⟩
      exact h
    simp only [processor_init_escrow, h0, h1, h2, h3, h4, ht, hr, hu, hs, hown, hex,
      hini, List.getElem?_set_ne (show (3 : Nat) ≠ 5 by decide), h5]
    simp [Escrow.pack, List.getElem?_set_eq_of_lt, hlen]

/-- Witness for C9: Init with amount 0 succeeds and persists
`expected_amount = 0`. -/
theorem invalid_amount_unreachable_witness :
    (processor_init_escrow iAccounts 0 77).res = .ok () ∧
    (processor_init_escrow iAccounts 0 77).accounts[3]? =
      some { iEscrowAcc with
              data := .escrow ⟨true, iInitializer.key, iTempToken.key, iReceive.key, 0⟩ } :=
  invalid_amount_unreachable.2.2.2 iAccounts 0 77 iInitializer iTempToken iReceive
    iEscrowAcc iRentAcc iTokenProg iTempState iRent ⟨false, 0, 0, 0, 0⟩
    rfl rfl rfl rfl rfl rfl rfl rfl rfl rfl rfl rfl rfl

/-- C10: In Init the rent-exemption check precedes the already-initialized
check: whenever the record account's balance is below the rent-exempt
threshold (even if its record is already initialized), the handler returns
`NotRentExempt`; and `AccountAlreadyInitialized` is only ever returned when
the record account passed the rent-exemption check. -/
theorem init_rent_check_precedes_init_check :
    (∀ (accounts : List AccountInfo) (amount program_id : Nat)
      (a0 a1 a2 a3 a4 : AccountInfo) (t : TokenAccount) (r : Rent),
      accounts[0]? = some a0 → a0.is_signer = true →
      accounts[1]? = some a1 → TokenAccount.unpack a1.data = .ok t →
      accounts[2]? = some a2 → a2.owner = spl_token_id →
      accounts[3]? = some a3 → accounts[4]? = some a4 →
      Rent.from_account_info a4.data = .ok r →
      r.is_exempt a3.lamports a3.data.len = false →
      processor_init_escrow accounts amount program_id =
        ⟨.error EscrowError.NotRentExempt.toProgramError, accounts, []⟩) ∧
    (∀ (accounts : List AccountInfo) (amount program_id : Nat),
      (processor_init_escrow accounts amount program_id).res =
        .error .AccountAlreadyInitialized →
      ∃ (a3 a4 : AccountInfo) (r : Rent),
        accounts[3]? = some a3 ∧ accounts[4]? = some a4 ∧
        Rent.from_account_info a4.data = .ok r ∧
        r.is_exempt a3.lamports a3.data.len = true) := by
  constructor
  · intro accounts amount program_id a0 a1 a2 a3 a4 t r
      h0 hs h1 ht h2 hown h3 h4 hr hex
    simp only [processor_init_escrow, h0, h1, h2, h3, h4, ht, hr, hs, hown, hex]
    simp
  · intro accounts amount program_id hok
    simp only [processor_init_escrow] at hok
    repeat' split at hok
    all_goals try exact Except.noConfusion hok
    all_goals simp only [Except.error.injEq] at hok
    all_goals try (rename_i e he
                   first
                     | (rcases token_unpack_error_cases he with rfl | rfl <;>
                         simp at hok)
                     | (rcases Rent.from_account_info_error_cases he with rfl
                        simp at hok)
                     | (rcases Escrow.unpack_unchecked_error_cases he with rfl
                        simp at hok))
    all_goals try simp [EscrowError.toProgramError, EscrowError.code] at hok
    rename_i x3 a3 hq3 x4 a4 hq4 xr r hqr hex xe e hqe hinit
    refine ⟨a3, a4, r, hq3, hq4, hqr, ?_⟩
    simpa using hex

/-- Witness for C10: a record account with 100 lamports for 105 data bytes
(below the 10-per-byte threshold) whose record is already initialized still
fails with `NotRentExempt`, not `AccountAlreadyInitialized`. -/
theorem init_rent_check_precedes_init_check_witness :
    iRent.is_exempt iPoorEscrowAcc.lamports iPoorEscrowAcc.data.len = false ∧
    iRecordInitialized.is_initialized = true ∧
    processor_init_escrow iAccountsPoor 9 77 =
      ⟨.error EscrowError.NotRentExempt.toProgramError, iAccountsPoor, []⟩ :=
  ⟨rfl, rfl,
    init_rent_check_precedes_init_check.1 iAccountsPoor 9 77 iInitializer
      iTempToken iReceive iPoorEscrowAcc iRentAcc iTempState iRent
      rfl rfl rfl rfl rfl rfl rfl rfl rfl rfl⟩

end SolanaEscrow
